import Mathlib

/-!
Shallow embedding of the fluxcd kustomize-controller reconcile/sync pipeline
(`KustomizationReconciler.Reconcile` and `KustomizationReconciler.sync`) and of
the update-event filter (`KustomizationSyncAtPredicate.Update`).

External effects (Kubernetes API gets, the temporary-directory creation, the
three shelled-out commands, the status write) are modelled by an oracle
environment supplying each step's outcome, and every effect performed is
recorded in an explicit trace of events, each tagged with the context value it
was given.  The functions below follow the Go source line by line.
-/

/-- A Go `context.Context` as used by `Reconcile`: it records whether the
context was derived from `context.Background()` and the timeout (in seconds)
installed by `context.WithTimeout`. -/
structure Ctx where
  fromBackground : Bool
  timeoutSeconds : Nat
deriving DecidableEq

/-- `sourcev1.Artifact`: only the `URL` field is consulted by the controller. -/
structure Artifact where
  url : String
deriving DecidableEq

/-- `sourcev1.GitRepositoryStatus`: the artifact is optional (`nil` in Go). -/
structure GitRepositoryStatus where
  artifact : Option Artifact
deriving DecidableEq

/-- `sourcev1.GitRepository`, restricted to the fields the controller reads. -/
structure GitRepository where
  name : String
  status : GitRepositoryStatus
deriving DecidableEq

/-- A status condition: `ready` is the condition's status (`Ready` vs
`NotReady`), with a reason and a message. -/
structure Condition where
  ready : Bool
  reason : String
  message : String
deriving DecidableEq

/-- `kustomizev1.KustomizationStatus`: the Ready-type condition, if one has
been written. -/
structure KustomizationStatus where
  condition : Option Condition
deriving DecidableEq

/-- `kustomizev1.KustomizationSpec`, restricted to the fields the controller
reads: the source reference name, the build path, the prune selector and the
re-sync interval (in seconds). -/
structure KustomizationSpec where
  gitRepositoryRefName : String
  path : String
  prune : String
  intervalSeconds : Nat
deriving DecidableEq

/-- `kustomizev1.Kustomization`, restricted to the fields the controller
reads and writes. -/
structure Kustomization where
  name : String
  namespace' : String
  spec : KustomizationSpec
  status : KustomizationStatus
deriving DecidableEq

/-- Modelled from the spec: the reason constants live in the api packages
(`kustomizev1`, `sourcev1`), which are not among the sources here.  The spec
requires one reason string per constant, each naming its stage; their exact
text is immaterial to the development, only which constant the controller
passes at which stage (visible in the source) and which constants are
distinct. -/
def ArtifactFailedReason : String := "ArtifactFailed"

/-- Modelled from the spec: `sourcev1.StorageOperationFailedReason`, see
`ArtifactFailedReason`. -/
def StorageOperationFailedReason : String := "StorageOperationFailed"

/-- Modelled from the spec: `kustomizev1.BuildFailedReason`, see
`ArtifactFailedReason`. -/
def BuildFailedReason : String := "BuildFailed"

/-- Modelled from the spec: `kustomizev1.ApplyFailedReason`, see
`ArtifactFailedReason`. -/
def ApplyFailedReason : String := "ApplyFailed"

/-- Modelled from the spec: `kustomizev1.ApplySucceedReason`, see
`ArtifactFailedReason`. -/
def ApplySucceedReason : String := "ApplySucceeded"

/-- Modelled from the spec: `kustomizev1.KustomizationNotReady` lives in the
api package, not among the sources here.  Per the spec the StatusReporter
writes a NotReady condition with the given reason and message onto the
object. -/
def KustomizationNotReady (k : Kustomization) (reason message : String) :
    Kustomization :=
  { k with status := { condition := some { ready := false, reason := reason,
                                           message := message } } }

/-- Modelled from the spec: `kustomizev1.KustomizationReady`, writing a Ready
condition with the given reason and message onto the object. -/
def KustomizationReady (k : Kustomization) (reason message : String) :
    Kustomization :=
  { k with status := { condition := some { ready := true, reason := reason,
                                           message := message } } }

/-- One effect performed by the reconciler, recorded in order.  Events that
take a `Ctx` are the ones the Go code passes the request context to. -/
inductive Event where
  | getKustomization (c : Ctx)
  | getRepository (c : Ctx) (namespace' name : String)
  | tempDirCreate (dir : String)
  | tempDirRemove (dir : String)
  | execCmd (c : Ctx) (cmd : String)
  | statusUpdate (c : Ctx)
  | logLine (s : String)
deriving DecidableEq

/-- The context an event was given, if the corresponding Go call site takes
one. -/
def eventCtx : Event → Option Ctx
  | Event.getKustomization c => some c
  | Event.getRepository c _ _ => some c
  | Event.execCmd c _ => some c
  | Event.statusUpdate c => some c
  | Event.tempDirCreate _ => none
  | Event.tempDirRemove _ => none
  | Event.logLine _ => none

/-- Outcome of one shelled-out command (`exec.CommandContext` followed by
`CombinedOutput`): the combined stdout/stderr text and, when the command
exited non-zero (or the context expired), the Go error's `Error()` string. -/
structure CmdResult where
  output : String
  err : Option String
deriving DecidableEq

/-- Outcome of `ioutil.TempDir`: the created directory's path, or the error
string on failure. -/
inductive TmpDir where
  | ok (dir : String)
  | err (e : String)
deriving DecidableEq

/-- Oracle for the external steps of one sync attempt, in pipeline order. -/
structure SyncEnv where
  tmpDirResult : TmpDir
  fetchResult : CmdResult
  buildResult : CmdResult
  applyResult : CmdResult
deriving DecidableEq

/-- The fetch command string built by `sync` (download and unpack). -/
def fetchCmdString (tmpDir url : String) : String :=
  "cd " ++ tmpDir ++ " && curl -sL " ++ url ++
    " | tar -xz --strip-components=1 -C ."

/-- The render command string built by `sync` (kustomize build). -/
def buildCmdString (tmpDir buildDir name : String) : String :=
  "cd " ++ tmpDir ++ " && kustomize build " ++ buildDir ++ " > " ++ name ++
    ".yaml"

/-- The apply command string built by `sync`: the prune flag is appended
exactly when the prune selector is non-empty. -/
def applyCmdString (tmpDir name prune : String) : String :=
  if prune ≠ "" then
    "cd " ++ tmpDir ++ " && kubectl apply -f " ++ name ++
      ".yaml --prune -l " ++ prune
  else
    "cd " ++ tmpDir ++ " && kubectl apply -f " ++ name ++ ".yaml"

/-- The body of `sync` after the temporary directory has been created:
fetch, render, apply, each aborting with the stage's condition and returned
error on failure.  Returns the updated object, the returned Go error (if
any) and the trace of effects performed inside the directory. -/
def syncInDir (c : Ctx) (kustomization : Kustomization) (url tmpDir : String)
    (env : SyncEnv) : Kustomization × Option String × List Event :=
  let fetchCmd := fetchCmdString tmpDir url
  match env.fetchResult.err with
  | some e =>
    let werr := "artifact acquisition failed: " ++ e
    (KustomizationNotReady kustomization ArtifactFailedReason werr,
     some ("artifact download `" ++ url ++ "` error: " ++
       env.fetchResult.output),
     [Event.execCmd c fetchCmd])
  | none =>
    let buildCmd := buildCmdString tmpDir kustomization.spec.path
      kustomization.name
    match env.buildResult.err with
    | some e =>
      let werr := "kustomize build error: " ++ e
      (KustomizationNotReady kustomization BuildFailedReason werr,
       some ("kustomize build error: " ++ env.buildResult.output),
       [Event.execCmd c fetchCmd, Event.execCmd c buildCmd,
        Event.logLine env.buildResult.output])
    | none =>
      let applyCmd := applyCmdString tmpDir kustomization.name
        kustomization.spec.prune
      match env.applyResult.err with
      | some e =>
        let werr := "kubectl apply error: " ++ e
        (KustomizationNotReady kustomization ApplyFailedReason werr,
         some ("kubectl apply: " ++ env.applyResult.output),
         [Event.execCmd c fetchCmd, Event.execCmd c buildCmd,
          Event.execCmd c applyCmd])
      | none =>
        (KustomizationReady kustomization ApplySucceedReason
           "kustomization was successfully applied",
         none,
         [Event.execCmd c fetchCmd, Event.execCmd c buildCmd,
          Event.execCmd c applyCmd, Event.logLine env.applyResult.output])

/-- `KustomizationReconciler.sync`: artifact presence check, temporary
directory creation (with `defer os.RemoveAll` modelled by the unconditional
trailing `tempDirRemove` event), then the in-directory pipeline. -/
def sync (c : Ctx) (kustomization : Kustomization)
    (repository : GitRepository) (env : SyncEnv) :
    Kustomization × Option String × List Event :=
  match repository.status.artifact with
  | none =>
    let e := "artifact not found in " ++ repository.name
    (KustomizationNotReady kustomization ArtifactFailedReason e, some e, [])
  | some artifact =>
    if artifact.url = "" then
      let e := "artifact not found in " ++ repository.name
      (KustomizationNotReady kustomization ArtifactFailedReason e, some e, [])
    else
      match env.tmpDirResult with
      | TmpDir.err e =>
        let werr := "tmp dir error: " ++ e
        (KustomizationNotReady kustomization StorageOperationFailedReason werr,
         some werr, [])
      | TmpDir.ok tmpDir =>
        let r := syncInDir c kustomization artifact.url tmpDir env
        (r.1, r.2.1,
         Event.tempDirCreate tmpDir :: (r.2.2 ++ [Event.tempDirRemove tmpDir]))

/-- Outcome of a Kubernetes API get: the object was not found, or another
error (with its `Error()` string). -/
inductive GetError where
  | notFound
  | other (e : String)
deriving DecidableEq

/-- `client.IgnoreNotFound`: not-found errors are dropped, others kept. -/
def ignoreNotFound : GetError → Option String
  | GetError.notFound => none
  | GetError.other e => some e

/-- The `Error()` string of a `GetError`, as returned by the Go `error`. -/
def getErrorString : GetError → String
  | GetError.notFound => "not found"
  | GetError.other e => e

/-- Outcome of a Kubernetes API get of an object of type `α`. -/
inductive GetResult (α : Type) where
  | ok (a : α)
  | err (e : GetError)
deriving DecidableEq

/-- `ctrl.Result`: requeue immediately, or after the given delay. -/
structure CtrlResult where
  requeue : Bool
  requeueAfterSeconds : Nat
deriving DecidableEq

/-- Oracle for the external steps of one reconcile attempt. -/
structure ReconcileEnv where
  getKustomizationResult : GetResult Kustomization
  getRepositoryResult : GetResult GitRepository
  syncEnv : SyncEnv
  statusUpdateErr : Option String
deriving DecidableEq

/-- The context `Reconcile` creates at attempt start:
`context.WithTimeout(context.Background(), 15*time.Second)`. -/
def reconcileCtx : Ctx := { fromBackground := true, timeoutSeconds := 15 }

/-- `KustomizationReconciler.Reconcile`: load the object (not-found is a
no-op), load its source repository, run one sync attempt on a deep copy,
write the resulting status unconditionally, and requeue after the declared
interval.  Returns the `ctrl.Result`, the returned Go error (if any) and
the trace of effects. -/
def Reconcile (env : ReconcileEnv) : CtrlResult × Option String × List Event :=
  let c := reconcileCtx
  match env.getKustomizationResult with
  | GetResult.err e =>
    ({ requeue := false, requeueAfterSeconds := 0 }, ignoreNotFound e,
     [Event.getKustomization c])
  | GetResult.ok kustomization =>
    match env.getRepositoryResult with
    | GetResult.err e =>
      ({ requeue := true, requeueAfterSeconds := 0 },
       some (getErrorString e),
       [Event.getKustomization c,
        Event.getRepository c kustomization.namespace'
          kustomization.spec.gitRepositoryRefName])
    | GetResult.ok repository =>
      let r := sync c kustomization repository env.syncEnv
      let trace := Event.getKustomization c ::
        Event.getRepository c kustomization.namespace'
          kustomization.spec.gitRepositoryRefName :: r.2.2
      match env.statusUpdateErr with
      | some e =>
        ({ requeue := true, requeueAfterSeconds := 0 }, some e,
         trace ++ [Event.statusUpdate c])
      | none =>
        ({ requeue := false,
           requeueAfterSeconds := kustomization.spec.intervalSeconds }, none,
         trace ++ [Event.statusUpdate c])

/-- Modelled from the spec: `kustomizev1.SyncAtAnnotation` lives in the api
package, not among the sources here; the spec designates one annotation key
holding an opaque re-sync token.  Its exact text is immaterial; the
predicate only compares presence and values under this one key. -/
def SyncAtAnnotationKey : String := "kustomize.fluxcd.io/syncAt"

/-- `metav1.Object` restricted to what the predicate reads: the generation
and the annotations map (as an association list, looked up by key). -/
structure ObjectMeta where
  generation : Int
  annotations : List (String × String)
deriving DecidableEq

/-- `event.UpdateEvent`: old and new object metadata, either possibly
absent (`nil`). -/
structure UpdateEvent where
  metaOld : Option ObjectMeta
  metaNew : Option ObjectMeta
deriving DecidableEq

/-- `KustomizationSyncAtPredicate.Update`: re-trigger on generation change or
on a set/changed sync-at annotation; suppress everything else, including
events missing metadata on either side. -/
def KustomizationSyncAtPredicateUpdate (e : UpdateEvent) : Bool :=
  match e.metaOld, e.metaNew with
  | some metaOld, some metaNew =>
    if metaNew.generation ≠ metaOld.generation then
      true
    else
      match metaNew.annotations.lookup SyncAtAnnotationKey with
      | some val =>
        match metaOld.annotations.lookup SyncAtAnnotationKey with
        | some valOld => val ≠ valOld
        | none => true
      | none => false
  | _, _ => false

/-- Classification of one sync attempt's outcome, carrying the data the
status condition is built from (the repository name for the artifact check,
the step's error string for each failing stage). -/
inductive SyncOutcome where
  | succeeded
  | artifactMissing (repoName : String)
  | workspaceFailed (e : String)
  | fetchFailed (e : String)
  | renderFailed (e : String)
  | applyFailed (e : String)
deriving DecidableEq

/-- The outcome of a sync attempt, classified by the same branch structure
as `sync` itself. -/
def outcomeOf (repository : GitRepository) (env : SyncEnv) : SyncOutcome :=
  match repository.status.artifact with
  | none => SyncOutcome.artifactMissing repository.name
  | some artifact =>
    if artifact.url = "" then
      SyncOutcome.artifactMissing repository.name
    else
      match env.tmpDirResult with
      | TmpDir.err e => SyncOutcome.workspaceFailed e
      | TmpDir.ok _ =>
        match env.fetchResult.err with
        | some e => SyncOutcome.fetchFailed e
        | none =>
          match env.buildResult.err with
          | some e => SyncOutcome.renderFailed e
          | none =>
            match env.applyResult.err with
            | some e => SyncOutcome.applyFailed e
            | none => SyncOutcome.succeeded

/-- The status condition the controller writes for each outcome: the pure
StatusReporter mapping.  Note the artifact-missing and fetch-failure stages
share `ArtifactFailedReason`. -/
def conditionFor : SyncOutcome → Condition
  | SyncOutcome.succeeded =>
    { ready := true, reason := ApplySucceedReason,
      message := "kustomization was successfully applied" }
  | SyncOutcome.artifactMissing n =>
    { ready := false, reason := ArtifactFailedReason,
      message := "artifact not found in " ++ n }
  | SyncOutcome.workspaceFailed e =>
    { ready := false, reason := StorageOperationFailedReason,
      message := "tmp dir error: " ++ e }
  | SyncOutcome.fetchFailed e =>
    { ready := false, reason := ArtifactFailedReason,
      message := "artifact acquisition failed: " ++ e }
  | SyncOutcome.renderFailed e =>
    { ready := false, reason := BuildFailedReason,
      message := "kustomize build error: " ++ e }
  | SyncOutcome.applyFailed e =>
    { ready := false, reason := ApplyFailedReason,
      message := "kubectl apply error: " ++ e }

/-! ### Sample fixtures used by witnesses and counterexamples -/

/-- A sample Kustomization object with empty prune selector. -/
def ck0 : Kustomization :=
  { name := "app", namespace' := "default",
    spec := { gitRepositoryRefName := "repo", path := "./", prune := "",
              intervalSeconds := 300 },
    status := { condition := none } }

/-- The sample object with a non-empty prune selector. -/
def ckPrune : Kustomization :=
  { ck0 with spec := { ck0.spec with prune := "app=foo" } }

/-- A sample repository exposing a ready artifact. -/
def crepo0 : GitRepository :=
  { name := "repo",
    status := { artifact := some { url := "https://x/artifact.tar.gz" } } }

/-- A sample repository whose artifact is absent. -/
def crepoMissing : GitRepository :=
  { name := "repo", status := { artifact := none } }

/-- A sync environment in which every external step succeeds. -/
def cenvOk : SyncEnv :=
  { tmpDirResult := TmpDir.ok "/tmp/repo123",
    fetchResult := { output := "", err := none },
    buildResult := { output := "", err := none },
    applyResult := { output := "deployment configured", err := none } }

/-- The success environment with the fetch step failing. -/
def cenvFetchFail : SyncEnv :=
  { cenvOk with fetchResult :=
      { output := "curl: (6) could not resolve host", err := some "exit status 6" } }

/-- The success environment with the render step failing. -/
def cenvBuildFail : SyncEnv :=
  { cenvOk with buildResult :=
      { output := "Error: unable to find kustomization.yaml",
        err := some "exit status 1" } }

/-- A reconcile environment in which everything succeeds. -/
def crenvOk : ReconcileEnv :=
  { getKustomizationResult := GetResult.ok ck0,
    getRepositoryResult := GetResult.ok crepo0,
    syncEnv := cenvOk, statusUpdateErr := none }

/-- The success reconcile environment with the source load failing. -/
def crenvRepoFail : ReconcileEnv :=
  { crenvOk with
    getRepositoryResult := GetResult.err (GetError.other "connection refused") }

/-- Sample metadata: generation 1, no annotations. -/
def cmetaGen1 : ObjectMeta := { generation := 1, annotations := [] }

/-- Sample metadata: generation 2, sync-at annotation set. -/
def cmetaGen2Ann : ObjectMeta :=
  { generation := 2, annotations := [(SyncAtAnnotationKey, "token1")] }

/-- Sample metadata: generation 1, sync-at annotation set to `token1`. -/
def cmetaGen1Ann : ObjectMeta :=
  { generation := 1, annotations := [(SyncAtAnnotationKey, "token1")] }

/-- An update event whose generation changed (and annotation also changed). -/
def cevGenChange : UpdateEvent :=
  { metaOld := some cmetaGen1, metaNew := some cmetaGen2Ann }

/-- An update event lacking metadata on the old side. -/
def cevNoMeta : UpdateEvent := { metaOld := none, metaNew := some cmetaGen1 }

/-- An update event with equal generations and unchanged annotation. -/
def cevNoOp : UpdateEvent :=
  { metaOld := some cmetaGen1Ann, metaNew := some cmetaGen1Ann }

/-! ### Claims -/

/-- C1 (counterexample): the artifact-missing stage and the fetch-failure
stage are distinct outcomes, yet the controller writes the same reason
(`ArtifactFailedReason`) for both, so the per-stage reasons are not distinct
as the claim states. -/
theorem C1_reasons_not_distinct_counterexample :
    outcomeOf crepoMissing cenvOk = SyncOutcome.artifactMissing "repo" ∧
    outcomeOf crepo0 cenvFetchFail = SyncOutcome.fetchFailed "exit status 6" ∧
    (sync reconcileCtx ck0 crepoMissing cenvOk).1.status.condition.map
      Condition.reason = some ArtifactFailedReason ∧
    (sync reconcileCtx ck0 crepo0 cenvFetchFail).1.status.condition.map
      Condition.reason = some ArtifactFailedReason := by
  refine ⟨rfl, rfl, rfl, rfl⟩

/-- C1 (amended): the status condition written by a sync attempt is a pure
function of the attempt's outcome: success yields Ready with the fixed
apply-succeeded reason and fixed message, and each failing stage yields
NotReady with a stage-determined reason — but the artifact-missing and
fetch-failure stages share the artifact-failed reason (workspace-acquisition
failure gets the storage-operation-failed reason, render and apply failures
each get their own reason). -/
theorem C1_status_condition_pure_mapping (c : Ctx) (k : Kustomization)
    (repo : GitRepository) (env : SyncEnv) :
    (sync c k repo env).1.status.condition =
      some (conditionFor (outcomeOf repo env)) := by
  cases h : repo.status.artifact with
  | none =>
    simp [sync, outcomeOf, h, conditionFor, KustomizationNotReady]
  | some a =>
    by_cases hu : a.url = ""
    · simp [sync, outcomeOf, h, hu, conditionFor, KustomizationNotReady]
    · cases ht : env.tmpDirResult with
      | err e =>
        simp [sync, outcomeOf, h, hu, ht, conditionFor, KustomizationNotReady]
      | ok d =>
        cases hf : env.fetchResult.err with
        | some e =>
          simp [sync, syncInDir, outcomeOf, h, hu, ht, hf, conditionFor,
            KustomizationNotReady]
        | none =>
          cases hb : env.buildResult.err with
          | some e =>
            simp [sync, syncInDir, outcomeOf, h, hu, ht, hf, hb, conditionFor,
              KustomizationNotReady]
          | none =>
            cases ha : env.applyResult.err with
            | some e =>
              simp [sync, syncInDir, outcomeOf, h, hu, ht, hf, hb, ha,
                conditionFor, KustomizationNotReady]
            | none =>
              simp [sync, syncInDir, outcomeOf, h, hu, ht, hf, hb, ha,
                conditionFor, KustomizationReady]

/-- C2: when the object load, the source load and the final status write all
succeed, `Reconcile` returns a nil error and a requeue after exactly the
object's declared interval, whatever the sync attempt's outcome was. -/
theorem C2_requeue_after_interval (env : ReconcileEnv) (k : Kustomization)
    (repo : GitRepository)
    (hk : env.getKustomizationResult = GetResult.ok k)
    (hr : env.getRepositoryResult = GetResult.ok repo)
    (hs : env.statusUpdateErr = none) :
    (Reconcile env).1 =
      { requeue := false, requeueAfterSeconds := k.spec.intervalSeconds } ∧
    (Reconcile env).2.1 = none := by
  simp [Reconcile, hk, hr, hs]

/-- C2 witness: a concrete reconcile in which the sync attempt fails at the
render stage still returns no error and the declared 300-second requeue. -/
theorem C2_requeue_after_interval_witness :
    (Reconcile { crenvOk with syncEnv := cenvBuildFail }).1 =
      { requeue := false, requeueAfterSeconds := 300 } ∧
    (Reconcile { crenvOk with syncEnv := cenvBuildFail }).2.1 = none :=
  C2_requeue_after_interval { crenvOk with syncEnv := cenvBuildFail }
    ck0 crepo0 rfl rfl rfl

/-- C3: when the source's artifact is absent or its URL is empty, the sync
attempt fails with the artifact-missing condition (NotReady with the
artifact-failed reason) and performs no effect at all before returning — in
particular no workspace directory is created. -/
theorem C3_artifact_missing_no_workspace (c : Ctx) (k : Kustomization)
    (repo : GitRepository) (env : SyncEnv)
    (h : repo.status.artifact = none ∨
         ∃ a, repo.status.artifact = some a ∧ a.url = "") :
    (sync c k repo env).1.status.condition =
      some { ready := false, reason := ArtifactFailedReason,
             message := "artifact not found in " ++ repo.name } ∧
    (sync c k repo env).2.2 = [] := by
  rcases h with h | ⟨a, ha, hu⟩
  · simp [sync, h, KustomizationNotReady]
  · simp [sync, ha, hu, KustomizationNotReady]

/-- C3 witness: the artifact-missing check fires on a concrete repository
with no artifact and leaves an empty effect trace. -/
theorem C3_artifact_missing_no_workspace_witness :
    (sync reconcileCtx ck0 crepoMissing cenvOk).1.status.condition =
      some { ready := false, reason := ArtifactFailedReason,
             message := "artifact not found in " ++ crepoMissing.name } ∧
    (sync reconcileCtx ck0 crepoMissing cenvOk).2.2 = [] :=
  C3_artifact_missing_no_workspace reconcileCtx ck0 crepoMissing cenvOk
    (Or.inl rfl)

/-- The in-directory pipeline never creates a workspace itself: only `sync`'s
temporary-directory step does. -/
theorem syncInDir_no_tempDirCreate (c : Ctx) (k : Kustomization)
    (url tmpDir : String) (env : SyncEnv) (d : String) :
    Event.tempDirCreate d ∉ (syncInDir c k url tmpDir env).2.2 := by
  cases hf : env.fetchResult.err <;> cases hb : env.buildResult.err <;>
    cases hap : env.applyResult.err <;>
      simp [syncInDir, hf, hb, hap]

/-- C4: every workspace directory a sync attempt creates is removed on every
return path of the attempt — the trace always pairs a `tempDirCreate` with a
matching `tempDirRemove`. -/
theorem C4_workspace_always_removed (c : Ctx) (k : Kustomization)
    (repo : GitRepository) (env : SyncEnv) (d : String)
    (h : Event.tempDirCreate d ∈ (sync c k repo env).2.2) :
    Event.tempDirRemove d ∈ (sync c k repo env).2.2 := by
  cases ha : repo.status.artifact with
  | none => simp [sync, ha] at h
  | some a =>
    by_cases hu : a.url = ""
    · simp [sync, ha, hu] at h
    · cases ht : env.tmpDirResult with
      | err e => simp [sync, ha, hu, ht] at h
      | ok dir =>
        have hne := syncInDir_no_tempDirCreate c k a.url dir env d
        simp [sync, ha, hu, ht] at h ⊢
        rcases h with h | h
        · exact Or.inr h
        · exact absurd h hne

/-- C4 witness: in a concrete failing attempt (render fails) the created
workspace `/tmp/repo123` is still removed. -/
theorem C4_workspace_always_removed_witness :
    Event.tempDirRemove "/tmp/repo123" ∈
      (sync reconcileCtx ck0 crepo0 cenvBuildFail).2.2 :=
  C4_workspace_always_removed reconcileCtx ck0 crepo0 cenvBuildFail
    "/tmp/repo123" (by decide)

/-- C5 (counterexample): on a concrete render failure the condition message
is the wrapped exec error string (`kustomize build error: exit status 1`),
and the step's captured diagnostic output is not contained in it — the claim
that the condition message contains the captured diagnostic output fails. -/
theorem C5_message_lacks_diagnostic_counterexample :
    (sync reconcileCtx ck0 crepo0 cenvBuildFail).1.status.condition.map
      Condition.message = some "kustomize build error: exit status 1" ∧
    cenvBuildFail.buildResult.output =
      "Error: unable to find kustomization.yaml" ∧
    ¬ ("Error: unable to find kustomization.yaml".data <:+:
       "kustomize build error: exit status 1".data) := by
  refine ⟨rfl, rfl, by decide⟩

/-- C5 (amended): when the render step exits non-zero the condition is
NotReady with the build-failed reason and its message is the wrapped exec
error string; the captured diagnostic output is surfaced in the returned
loop-level error and echoed to the log, not in the condition message. -/
theorem C5_render_failure_condition (c : Ctx) (k : Kustomization)
    (repo : GitRepository) (env : SyncEnv) (a : Artifact) (d e : String)
    (ha : repo.status.artifact = some a) (hu : a.url ≠ "")
    (ht : env.tmpDirResult = TmpDir.ok d)
    (hf : env.fetchResult.err = none)
    (hb : env.buildResult.err = some e) :
    (sync c k repo env).1.status.condition =
      some { ready := false, reason := BuildFailedReason,
             message := "kustomize build error: " ++ e } ∧
    (sync c k repo env).2.1 =
      some ("kustomize build error: " ++ env.buildResult.output) ∧
    Event.logLine env.buildResult.output ∈ (sync c k repo env).2.2 := by
  simp [sync, syncInDir, ha, hu, ht, hf, hb, KustomizationNotReady]

/-- C5 witness: the amended render-failure behaviour at a concrete input. -/
theorem C5_render_failure_condition_witness :
    (sync reconcileCtx ck0 crepo0 cenvBuildFail).1.status.condition =
      some { ready := false, reason := BuildFailedReason,
             message := "kustomize build error: " ++ "exit status 1" } ∧
    (sync reconcileCtx ck0 crepo0 cenvBuildFail).2.1 =
      some ("kustomize build error: " ++
        cenvBuildFail.buildResult.output) ∧
    Event.logLine cenvBuildFail.buildResult.output ∈
      (sync reconcileCtx ck0 crepo0 cenvBuildFail).2.2 :=
  C5_render_failure_condition reconcileCtx ck0 crepo0 cenvBuildFail
    { url := "https://x/artifact.tar.gz" } "/tmp/repo123" "exit status 1"
    rfl (by decide) rfl rfl rfl

/-- C6: when the object loads but its source repository does not, `Reconcile`
returns an immediate-requeue result together with the load error, and never
reaches the status write — the object's status is left untouched. -/
theorem C6_source_load_failure_no_status_write (env : ReconcileEnv)
    (k : Kustomization) (e : GetError)
    (hk : env.getKustomizationResult = GetResult.ok k)
    (hr : env.getRepositoryResult = GetResult.err e) :
    (Reconcile env).1 = { requeue := true, requeueAfterSeconds := 0 } ∧
    (Reconcile env).2.1 = some (getErrorString e) ∧
    ∀ c, Event.statusUpdate c ∉ (Reconcile env).2.2 := by
  simp [Reconcile, hk, hr]

/-- C6 witness: concrete source-load failure. -/
theorem C6_source_load_failure_no_status_write_witness :
    (Reconcile crenvRepoFail).1 =
      { requeue := true, requeueAfterSeconds := 0 } ∧
    (Reconcile crenvRepoFail).2.1 =
      some (getErrorString (GetError.other "connection refused")) ∧
    ∀ c, Event.statusUpdate c ∉ (Reconcile crenvRepoFail).2.2 :=
  C6_source_load_failure_no_status_write crenvRepoFail
    ck0 (GetError.other "connection refused") rfl rfl

/-- C7: once the apply stage is reached, a non-empty prune selector makes the
attempt invoke the apply command carrying `--prune -l` scoped to exactly that
selector, and an empty selector makes it invoke the apply command with no
prune flag. -/
theorem C7_prune_flag_scoping (c : Ctx) (k : Kustomization)
    (repo : GitRepository) (env : SyncEnv) (a : Artifact) (d : String)
    (ha : repo.status.artifact = some a) (hu : a.url ≠ "")
    (ht : env.tmpDirResult = TmpDir.ok d)
    (hf : env.fetchResult.err = none) (hb : env.buildResult.err = none) :
    (k.spec.prune ≠ "" →
      Event.execCmd c ("cd " ++ d ++ " && kubectl apply -f " ++ k.name ++
        ".yaml --prune -l " ++ k.spec.prune) ∈ (sync c k repo env).2.2) ∧
    (k.spec.prune = "" →
      Event.execCmd c ("cd " ++ d ++ " && kubectl apply -f " ++ k.name ++
        ".yaml") ∈ (sync c k repo env).2.2) := by
  constructor <;> intro hp <;> cases hap : env.applyResult.err <;>
    simp [sync, syncInDir, applyCmdString, ha, hu, ht, hf, hb, hap, hp]

/-- C7 witness: with `prune="app=foo"` the apply command carries the scoped
prune flag; with `prune=""` it carries none. -/
theorem C7_prune_flag_scoping_witness :
    Event.execCmd reconcileCtx
      ("cd " ++ "/tmp/repo123" ++ " && kubectl apply -f " ++ "app" ++
        ".yaml --prune -l " ++ "app=foo")
      ∈ (sync reconcileCtx ckPrune crepo0 cenvOk).2.2 ∧
    Event.execCmd reconcileCtx
      ("cd " ++ "/tmp/repo123" ++ " && kubectl apply -f " ++ "app" ++
        ".yaml")
      ∈ (sync reconcileCtx ck0 crepo0 cenvOk).2.2 := by
  constructor
  · exact (C7_prune_flag_scoping reconcileCtx ckPrune crepo0 cenvOk
      { url := "https://x/artifact.tar.gz" } "/tmp/repo123"
      rfl (by decide) rfl rfl rfl).1 (by decide)
  · exact (C7_prune_flag_scoping reconcileCtx ck0 crepo0 cenvOk
      { url := "https://x/artifact.tar.gz" } "/tmp/repo123"
      rfl (by decide) rfl rfl rfl).2 rfl

/-- C8: with metadata present on both sides, any generation difference makes
the change predicate return true, whatever the sync-at annotation holds on
either side. -/
theorem C8_generation_change_triggers (e : UpdateEvent) (mo mn : ObjectMeta)
    (ho : e.metaOld = some mo) (hn : e.metaNew = some mn)
    (hg : mn.generation ≠ mo.generation) :
    KustomizationSyncAtPredicateUpdate e = true := by
  simp [KustomizationSyncAtPredicateUpdate, ho, hn, hg]

/-- C8 witness: a concrete generation bump is re-triggered. -/
theorem C8_generation_change_triggers_witness :
    KustomizationSyncAtPredicateUpdate cevGenChange = true :=
  C8_generation_change_triggers cevGenChange cmetaGen1 cmetaGen2Ann
    rfl rfl (by decide)

/-- C9: the change predicate suppresses every event it must: events missing
metadata on either side, and events with equal generations whose sync-at
annotation is absent on the new object or equal to the old object's value. -/
theorem C9_suppressed_events (e : UpdateEvent) :
    ((e.metaOld = none ∨ e.metaNew = none) →
      KustomizationSyncAtPredicateUpdate e = false) ∧
    (∀ mo mn, e.metaOld = some mo → e.metaNew = some mn →
      mn.generation = mo.generation →
      (mn.annotations.lookup SyncAtAnnotationKey = none ∨
       ∃ v, mn.annotations.lookup SyncAtAnnotationKey = some v ∧
            mo.annotations.lookup SyncAtAnnotationKey = some v) →
      KustomizationSyncAtPredicateUpdate e = false) := by
  constructor
  · intro h
    cases ho : e.metaOld <;> cases hn : e.metaNew <;>
      simp_all [KustomizationSyncAtPredicateUpdate]
  · intro mo mn ho hn hg hann
    rcases hann with hnone | ⟨v, hv, hvo⟩
    · simp [KustomizationSyncAtPredicateUpdate, ho, hn, hg, hnone]
    · simp [KustomizationSyncAtPredicateUpdate, ho, hn, hg, hv, hvo]

/-- C9 witness: a concrete metadata-less event and a concrete equal-
generation, unchanged-annotation event are both suppressed. -/
theorem C9_suppressed_events_witness :
    KustomizationSyncAtPredicateUpdate cevNoMeta = false ∧
    KustomizationSyncAtPredicateUpdate cevNoOp = false :=
  ⟨(C9_suppressed_events cevNoMeta).1 (Or.inl rfl),
   (C9_suppressed_events cevNoOp).2 cmetaGen1Ann cmetaGen1Ann rfl rfl rfl
     (Or.inr ⟨"token1", by decide, by decide⟩)⟩

/-- Every event emitted inside the workspace carries either no context or
exactly the context the attempt was given. -/
theorem syncInDir_events_ctx (c : Ctx) (k : Kustomization)
    (url tmpDir : String) (env : SyncEnv) :
    List.Forall (fun ev => eventCtx ev = none ∨ eventCtx ev = some c)
      (syncInDir c k url tmpDir env).2.2 := by
  cases hf : env.fetchResult.err <;> cases hb : env.buildResult.err <;>
    cases hap : env.applyResult.err <;>
      simp [syncInDir, hf, hb, hap, List.forall_cons, List.Forall, eventCtx]

/-- Every event emitted by a sync attempt carries either no context or
exactly the context the attempt was given. -/
theorem sync_events_ctx (c : Ctx) (k : Kustomization) (repo : GitRepository)
    (env : SyncEnv) (ev : Event) (h : ev ∈ (sync c k repo env).2.2) :
    eventCtx ev = none ∨ eventCtx ev = some c := by
  cases ha : repo.status.artifact with
  | none => simp [sync, ha] at h
  | some a =>
    by_cases hu : a.url = ""
    · simp [sync, ha, hu] at h
    · cases ht : env.tmpDirResult with
      | err e => simp [sync, ha, hu, ht] at h
      | ok dir =>
        have hin := List.forall_iff_forall_mem.mp
          (syncInDir_events_ctx c k a.url dir env)
        simp [sync, ha, hu, ht] at h
        rcases h with rfl | h | rfl
        · simp [eventCtx]
        · exact hin ev h
        · simp [eventCtx]

/-- C10: every context-taking effect of a reconcile attempt — the object
loads, the three external commands, the status write — runs under the single
context created at attempt start from the background context with a fixed
15-second timeout, independent of the declared interval and of the caller. -/
theorem C10_fixed_attempt_context (env : ReconcileEnv) (ev : Event) (c : Ctx)
    (h : ev ∈ (Reconcile env).2.2) (hc : eventCtx ev = some c) :
    c.fromBackground = true ∧ c.timeoutSeconds = 15 := by
  cases hk : env.getKustomizationResult with
  | err e =>
    simp [Reconcile, hk] at h
    subst h
    simp [eventCtx, reconcileCtx] at hc
    subst hc
    exact ⟨rfl, rfl⟩
  | ok k =>
    cases hr : env.getRepositoryResult with
    | err e =>
      simp [Reconcile, hk, hr] at h
      rcases h with rfl | rfl <;>
        · simp [eventCtx, reconcileCtx] at hc
          subst hc
          exact ⟨rfl, rfl⟩
    | ok repo =>
      have hsync := sync_events_ctx reconcileCtx k repo env.syncEnv ev
      cases hs : env.statusUpdateErr with
      | some e =>
        simp [Reconcile, hk, hr, hs] at h
        rcases h with rfl | rfl | h | rfl
        · simp [eventCtx, reconcileCtx] at hc; subst hc; exact ⟨rfl, rfl⟩
        · simp [eventCtx, reconcileCtx] at hc; subst hc; exact ⟨rfl, rfl⟩
        · rcases hsync h with hnone | hsome
          · rw [hc] at hnone; exact Option.noConfusion hnone
          · rw [hc] at hsome
            have hcc : c = reconcileCtx := by injection hsome
            subst hcc; exact ⟨rfl, rfl⟩
        · simp [eventCtx, reconcileCtx] at hc; subst hc; exact ⟨rfl, rfl⟩
      | none =>
        simp [Reconcile, hk, hr, hs] at h
        rcases h with rfl | rfl | h | rfl
        · simp [eventCtx, reconcileCtx] at hc; subst hc; exact ⟨rfl, rfl⟩
        · simp [eventCtx, reconcileCtx] at hc; subst hc; exact ⟨rfl, rfl⟩
        · rcases hsync h with hnone | hsome
          · rw [hc] at hnone; exact Option.noConfusion hnone
          · rw [hc] at hsome
            have hcc : c = reconcileCtx := by injection hsome
            subst hcc; exact ⟨rfl, rfl⟩
        · simp [eventCtx, reconcileCtx] at hc; subst hc; exact ⟨rfl, rfl⟩

/-- C10 witness: the object load of a concrete attempt carries the
background-derived 15-second context. -/
theorem C10_fixed_attempt_context_witness :
    reconcileCtx.fromBackground = true ∧ reconcileCtx.timeoutSeconds = 15 :=
  C10_fixed_attempt_context crenvOk (Event.getKustomization reconcileCtx)
    reconcileCtx (by decide) rfl
